import Mathlib

/-!
Verification of the trim-telemetry test-instrumentation engine.

This file shallowly embeds the telemetry collectors of the repository
(`trim_telemetry/base_telemetry.py`, `trim_telemetry/django/telemetry.py`,
`trim_telemetry/django_telemetry.py`, `trim_telemetry/django_runner.py`,
`base_collector.py`) and proves or refutes the specification claims about
them.  Machine reals (Python floats) are modelled as rationals, Python
dictionaries as insertion-ordered association lists, and the dynamic values
stored in the query log as small inductive types.
-/

set_option maxRecDepth 8000

namespace TrimTelemetry

/-- Python's built-in `round` on a rational: round half to even. -/
def pyRound (x : ℚ) : ℤ :=
  let f := ⌊x⌋
  let frac := x - (f : ℚ)
  if frac < 1 / 2 then f
  else if 1 / 2 < frac then f + 1
  else if f % 2 = 0 then f else f + 1

/-- Python's `int()` conversion on a rational: truncation toward zero. -/
def pyTrunc (x : ℚ) : ℤ :=
  if x < 0 then -⌊-x⌋ else ⌊x⌋

/-- Python `str.upper()`, modelled on the code-point list (Python strings
are sequences of code points). -/
def pyUpper (s : String) : String :=
  ⟨s.data.map Char.toUpper⟩

/-- Python `str.strip()`: remove leading and trailing whitespace. -/
def pyStrip (s : String) : String :=
  ⟨((s.data.dropWhile Char.isWhitespace).reverse.dropWhile Char.isWhitespace).reverse⟩

/-- Python slicing `s[:n]`: the first `n` code points. -/
def pyTake (s : String) (n : Nat) : String :=
  ⟨s.data.take n⟩

/-- Python `len()` on a string: the number of code points. -/
def pyLen (s : String) : Nat :=
  s.data.length

/-- Python `str.startswith(t)`. -/
def pyStartsWith (s t : String) : Bool :=
  List.isPrefixOf t.data s.data

/-- Lookup in an insertion-ordered association list (Python `dict.get`). -/
def getA {α : Type} : List (String × α) → String → Option α
  | [], _ => none
  | p :: ps, k => if p.1 = k then some p.2 else getA ps k

/-- Update/insert in an insertion-ordered association list (Python `dict[k] = v`):
an existing key keeps its position, a new key is appended at the end. -/
def setA {α : Type} : List (String × α) → String → α → List (String × α)
  | [], k, v => [(k, v)]
  | p :: ps, k, v => if p.1 = k then (k, v) :: ps else p :: setA ps k v

/-- Deletion from an association list (Python `del dict[k]`). -/
def delA {α : Type} : List (String × α) → String → List (String × α)
  | [], _ => []
  | p :: ps, k => if p.1 = k then ps else p :: delA ps k

/-- The dynamic value found under the `"time"` key of a query-log entry,
classified by how Python's `float()` conversion and truthiness treat it. -/
inductive TimeVal where
  /-- a numeric value; `float()` returns it unchanged -/
  | num (q : ℚ)
  /-- a non-empty string that parses as the float `q` (Django stores times as strings) -/
  | numStr (q : ℚ)
  /-- a non-empty string that does not parse (`float()` raises `ValueError`) -/
  | badStr
  /-- the empty string (falsy) -/
  | emptyStr
  /-- Python `None` (falsy) -/
  | pyNone
deriving DecidableEq

/-- One entry of Django's `connection.queries` log; `time = none` models an
absent `"time"` key (then `query.get("time", 0)` yields the falsy `0`). -/
structure Query where
  sql : String
  time : Option TimeVal
deriving DecidableEq

/-- Defensive duration parsing shared by both Django collectors:
`duration = float(duration_raw) if duration_raw else 0` guarded by
`except (ValueError, TypeError): duration = 0`. -/
def query_duration (q : Query) : ℚ :=
  match q.time with
  | none => 0
  | some (.num v) => v
  | some (.numStr v) => v
  | some .badStr => 0
  | some .emptyStr => 0
  | some .pyNone => 0

/-- `sql = query.get("sql", "").upper().strip()` followed by
`sql_signature = sql[:100]` (first 100 characters). -/
def sql_signature (q : Query) : String :=
  pyTake (pyStrip (pyUpper q.sql)) 100

/-- `total_duration` accumulated over the attributed queries
(`django_telemetry.py`, first pass of `_collect_database_telemetry`). -/
def total_duration (qs : List Query) : ℚ :=
  (qs.map query_duration).sum

/-- The `total_duration_ms` field of the returned database telemetry:
`round(total_duration * 1000)`. -/
def db_total_duration_ms (qs : List Query) : ℤ :=
  pyRound (total_duration qs * 1000)

/-- One step of duplicate tracking in `django_telemetry.py`:
`if sql_signature in query_signatures: ... += 1 else: ... = 1`. -/
def bump_signature (m : List (String × Nat)) (sig : String) : List (String × Nat) :=
  match getA m sig with
  | some c => setA m sig (c + 1)
  | none => m ++ [(sig, 1)]

/-- The `query_signatures` dictionary built over the attributed queries
(`django_telemetry.py:_collect_database_telemetry`). -/
def query_signatures (qs : List Query) : List (String × Nat) :=
  qs.foldl (fun m q => bump_signature m (sql_signature q)) []

/-- An entry of the `duplicate_queries` list: the signature text and the
occurrence count.  The source stores no duration in these entries. -/
structure DupEntry where
  sql : String
  count : Nat
deriving DecidableEq

/-- The `duplicate_queries` list of `django_telemetry.py`: every signature
group with `count > 1`, in dictionary (insertion) order. -/
def duplicate_queries (qs : List Query) : List DupEntry :=
  ((query_signatures qs).filter (fun p => 1 < p.2)).map
    (fun p => ⟨if pyLen p.1 > 100 then p.1 ++ "..." else p.1, p.2⟩)

/-- Specification-side group size: the number of attributed queries whose
signature is `sig`. -/
def signature_count (qs : List Query) (sig : String) : ℕ :=
  (qs.filter (fun q => sql_signature q = sig)).length

/-- Specification-side cumulative duration of the signature group `sig`. -/
def signature_total_duration (qs : List Query) (sig : String) : ℚ :=
  ((qs.filter (fun q => sql_signature q = sig)).map query_duration).sum

/-- SQL text stored in a group entry: truncated to 200 characters with a
trailing ellipsis marker (`query.get("sql", "")[:200] + "..."` when longer). -/
def display_sql (s : String) : String :=
  if pyLen s > 200 then pyTake s 200 ++ "..." else s

/-- The value stored under one signature in the nested Django collector's
`query_signatures` dictionary (`django/telemetry.py`): display SQL, count
and accumulated raw duration. -/
structure DjGroup where
  sql : String
  count : Nat
  totalDuration : ℚ
deriving DecidableEq

/-- First-pass step of `django/telemetry.py:_collect_database_telemetry`:
accumulate the query's coerced duration into its signature group, or open
a fresh group. -/
def dj_bump (m : List (String × DjGroup)) (q : Query) : List (String × DjGroup) :=
  let d := query_duration q
  let sig := sql_signature q
  match getA m sig with
  | some g => setA m sig ⟨g.sql, g.count + 1, g.totalDuration + d⟩
  | none => m ++ [(sig, ⟨display_sql q.sql, 1, d⟩)]

/-- The nested collector's `query_signatures` dictionary over the attributed
queries. -/
def dj_query_signatures (qs : List Query) : List (String × DjGroup) :=
  qs.foldl dj_bump []

/-- One element of the nested collector's `queries` output list
(second pass): `{sql, total_duration_ms, count}`. -/
structure DjQueryEntry where
  sql : String
  total_duration_ms : ℤ
  count : Nat
deriving DecidableEq

/-- Second pass of `django/telemetry.py:_collect_database_telemetry`:
one entry per signature group with `round(total_duration * 1000)`. -/
def dj_all_queries (qs : List Query) : List DjQueryEntry :=
  (dj_query_signatures qs).map
    (fun p => ⟨p.2.sql, pyRound (p.2.totalDuration * 1000), p.2.count⟩)

/-- The dictionary returned by `django/telemetry.py:_collect_database_telemetry`:
either the full zero-valued `_get_empty_database_telemetry()` dictionary
(when the attributed slice is empty), or a dictionary holding only the
`"queries"` key (when it is not). -/
inductive DjDbResult where
  | emptyTelemetry
  | grouped (queries : List DjQueryEntry)
deriving DecidableEq

/-- Value read by `database_telemetry.get("count", 0)` in the base
`end_test`: the empty dictionary carries an explicit `0`; the grouped
dictionary has no `"count"` key, so the default `0` is used. -/
def db_result_count : DjDbResult → ℕ
  | .emptyTelemetry => 0
  | .grouped _ => 0

/-- Value read by `database_telemetry.get("total_duration_ms", 0)`:
explicit `0` in the empty dictionary, default `0` otherwise (the grouped
dictionary has no such key). -/
def db_result_total_duration_ms : DjDbResult → ℤ
  | .emptyTelemetry => 0
  | .grouped _ => 0

/-- Value read by `database_telemetry.get("queries", [])`. -/
def db_result_queries : DjDbResult → List DjQueryEntry
  | .emptyTelemetry => []
  | .grouped l => l

/-- Value read by `database_telemetry.get("duplicate_queries", [])`: the
empty dictionary carries `[]` and the grouped dictionary has no such key. -/
def db_result_duplicates : DjDbResult → List DupEntry
  | .emptyTelemetry => []
  | .grouped _ => []

/-- Network-call tracking value stored per test in `test_network_calls`,
tagged with its dynamic Python type: the base collector stores a plain list,
the Django collector stores a dictionary `{"calls": [...]}` and marks a
stopped test with `None`.  A call is recorded by its URL. -/
inductive NetVal where
  | pyList (calls : List String)
  | pyDict (calls : List String)
  | pyNone
deriving DecidableEq

/-- Per-test bookkeeping of `BaseTelemetryCollector` (`base_telemetry.py`):
the four dictionaries keyed by `test_id`. -/
structure CollectorState where
  test_status : List (String × String)
  test_timings : List (String × ℚ)
  test_queries : List (String × ℕ)
  test_network_calls : List (String × NetVal)
deriving DecidableEq

/-- `BaseTelemetryCollector.start_test`: mark the test running, record its
start time, and initialise the query count to `0` and the network-call
entry to an empty list. -/
def start_test (s : CollectorState) (tid : String) (now : ℚ) : CollectorState :=
  { test_status := setA s.test_status tid "running"
    test_timings := setA s.test_timings tid now
    test_queries := setA s.test_queries tid 0
    test_network_calls := setA s.test_network_calls tid (.pyList []) }

/-- `BaseTelemetryCollector._collect_network_telemetry`: read the test's
entry as a dictionary; a missing entry defaults to `{}` (no calls), a list
or `None` entry raises `AttributeError` on `.get`, which the surrounding
`except` collapses to zero calls.  Returns `(total_calls, urls)`. -/
def collect_network_telemetry (s : CollectorState) (tid : String) : ℕ × List String :=
  match getA s.test_network_calls tid with
  | none => (0, [])
  | some (.pyDict calls) => if calls = [] then (0, []) else (calls.length, calls)
  | some (.pyList _) => (0, [])
  | some .pyNone => (0, [])

/-- `BaseTelemetryCollector._cleanup_test_data`: delete the test's entries
from all four dictionaries. -/
def cleanup_test_data (s : CollectorState) (tid : String) : CollectorState :=
  { test_status := delA s.test_status tid
    test_timings := delA s.test_timings tid
    test_queries := delA s.test_queries tid
    test_network_calls := delA s.test_network_calls tid }

/-- The global `urllib.request.urlopen` entry point: either the library
original or one of the tracking closures created by
`start_network_monitoring` (one fresh closure per call, tagged here by the
test that installed it). -/
inductive UrlopenFunc where
  | original
  | tracked (owner : String)
deriving DecidableEq

/-- Module-global attributes of `urllib.request` touched by the nested
Django collector: the current `urlopen` callable, the
`_trim_telemetry_patched` marker and the saved `_original_urlopen`. -/
structure UrllibState where
  urlopen : UrlopenFunc
  patched : Bool
  originalSaved : Option UrlopenFunc
deriving DecidableEq

/-- Full state of `django/telemetry.py:DjangoTelemetryCollector`: the base
collector dictionaries, the patched global entry point, and Django's global
`connection.queries` log. -/
structure DjangoState where
  collector : CollectorState
  urllib : UrllibState
  queryLog : List Query
deriving DecidableEq

/-- `django/telemetry.py:start_network_monitoring`: initialise the test's
call-tracking dictionary; save the original `urlopen` and set the patched
marker only if not already patched; install a fresh tracking closure. -/
def start_network_monitoring (s : DjangoState) (tid : String) : DjangoState :=
  let c := { s.collector with
             test_network_calls := setA s.collector.test_network_calls tid (.pyDict []) }
  let u := if ¬s.urllib.patched then
             { s.urllib with originalSaved := some s.urllib.urlopen, patched := true }
           else s.urllib
  { s with collector := c, urllib := { u with urlopen := .tracked tid } }

/-- `django/telemetry.py:stop_network_monitoring`: if the test is present,
mark it inactive by storing `None`; if no active test remains and the saved
original exists, restore `urlopen` and delete both marker attributes. -/
def stop_network_monitoring (s : DjangoState) (tid : String) : DjangoState :=
  if (getA s.collector.test_network_calls tid).isSome then
    let c := { s.collector with
               test_network_calls := setA s.collector.test_network_calls tid .pyNone }
    let active := c.test_network_calls.filter (fun p => p.2 ≠ .pyNone)
    if active = [] then
      match s.urllib.originalSaved with
      | some f => { s with collector := c, urllib := ⟨f, false, none⟩ }
      | none => { s with collector := c }
    else
      { s with collector := c }
  else s

/-- `django/telemetry.py:start_test`: run the base `start_test`, overwrite
the test's watermark with the current global query-log length, start network
monitoring, and only then reset the global log. -/
def dj_start_test (s : DjangoState) (tid : String) (now : ℚ) : DjangoState :=
  let s1 := { s with collector := start_test s.collector tid now }
  let initial_count := s1.queryLog.length
  let s2 := { s1 with collector := { s1.collector with
              test_queries := setA s1.collector.test_queries tid initial_count } }
  let s3 := start_network_monitoring s2 tid
  { s3 with queryLog := [] }

/-- The slice `current_queries[initial_count:]` attributed to the test by
`django/telemetry.py:_collect_database_telemetry`, with the watermark read
via `self.test_queries.get(test_id, 0)`. -/
def dj_attributed_queries (s : DjangoState) (tid : String) : List Query :=
  s.queryLog.drop ((getA s.collector.test_queries tid).getD 0)

/-- `django/telemetry.py:_collect_database_telemetry`: empty telemetry for
an empty attributed slice, otherwise a dictionary holding only the grouped
`queries` list. -/
def dj_collect_database_telemetry (s : DjangoState) (tid : String) : DjDbResult :=
  let test_queries := dj_attributed_queries s tid
  if test_queries.length = 0 then .emptyTelemetry
  else .grouped (dj_all_queries test_queries)

/-- The per-test record assembled by `BaseTelemetryCollector.end_test`
(the fields relevant to the claims; timestamps are kept as raw clock
values). -/
structure TestTelemetryRecord where
  status : String
  test_duration_ms : ℤ
  start_time : ℚ
  end_time : ℚ
  db_count : ℕ
  db_total_duration_ms : ℤ
  db_queries : List DjQueryEntry
  db_duplicate_queries : List DupEntry
  net_total_calls : ℕ
  net_urls : List String
deriving DecidableEq

/-- `end_test` of the nested Django collector: the base `end_test` body
(duration from the recorded start time, telemetry collection, record
assembly, then `_cleanup_test_data`) followed — as in
`django/telemetry.py:end_test` — by `stop_network_monitoring`.
Returns the successor state and the record. -/
def dj_end_test (s : DjangoState) (tid : String) (endTime : ℚ) (status : String) :
    DjangoState × TestTelemetryRecord :=
  let start_time := (getA s.collector.test_timings tid).getD endTime
  let duration_ms := pyRound ((endTime - start_time) * 1000)
  let dbRes := dj_collect_database_telemetry s tid
  let net := collect_network_telemetry s.collector tid
  let record : TestTelemetryRecord :=
    { status := status
      test_duration_ms := duration_ms
      start_time := start_time
      end_time := endTime
      db_count := db_result_count dbRes
      db_total_duration_ms := db_result_total_duration_ms dbRes
      db_queries := db_result_queries dbRes
      db_duplicate_queries := db_result_duplicates dbRes
      net_total_calls := net.1
      net_urls := net.2 }
  let s1 := { s with collector := cleanup_test_data s.collector tid }
  let s2 := stop_network_monitoring s1 tid
  (s2, record)

/-- Observable state of the telemetry sink: the configured file path
(`None` after `_ensure_telemetry_file` failed), the bytes appended to the
run file so far, and the lines printed to standard output. -/
structure SinkState where
  telemetry_file : Option String
  fileData : String
  stdoutData : List String
deriving DecidableEq

/-- `BaseTelemetryCollector._ensure_telemetry_file`: on any failure to
create the directory or file, the collector falls back by setting
`telemetry_file = None`; `ok` models whether the file system co-operated. -/
def ensure_telemetry_file (ok : Bool) (path : String) : Option String :=
  if ok then some path else none

/-- `BaseTelemetryCollector._write_telemetry`: serialize `data` with the
host serializer `dumps` (Python `json.dumps`); append the line plus a
newline to the run file and flush; on a `None` path, or on any exception
while opening/writing the file (`fileOk = false`), print the very same
serialized line to standard output instead.  The function is total: every
failure path degrades to the fallback channel instead of raising. -/
def write_telemetry {α : Type} (dumps : α → String) (fileOk : Bool)
    (s : SinkState) (data : α) : SinkState :=
  match s.telemetry_file with
  | some _ =>
    if fileOk then { s with fileData := s.fileData ++ (dumps data ++ "\n") }
    else { s with stdoutData := s.stdoutData ++ [dumps data] }
  | none => { s with stdoutData := s.stdoutData ++ [dumps data] }

/-- `django_runner.py:TrimTelemetryRunner._calculate_percentile`, with
Python floats modelled as exact rationals: `0` on an empty history, the
rounded single element when `n == 1`, otherwise round-half-even applied to
the linear interpolation at `index = percentile/100 * (n-1)` over the
sorted history (`int(index)` truncates, `index.is_integer()` tests for an
integral rational). -/
def calculate_percentile (percentile : ℚ) (durations : List ℚ) : ℤ :=
  if durations = [] then 0
  else
    let sorted_durations := List.insertionSort (· ≤ ·) durations
    let n := sorted_durations.length
    if n = 1 then pyRound (sorted_durations.getD 0 0)
    else
      let index : ℚ := percentile / 100 * ((n : ℚ) - 1)
      if index.den = 1 then pyRound (sorted_durations.getD (pyTrunc index).toNat 0)
      else
        let lower_index := pyTrunc index
        let upper_index := lower_index + 1
        let weight := index - (lower_index : ℚ)
        let lower_value := sorted_durations.getD lower_index.toNat 0
        let upper_value := sorted_durations.getD upper_index.toNat 0
        pyRound (lower_value + weight * (upper_value - lower_value))

/-- Modelled from the spec (§4.5), amended with the rounding the code
applies to every returned value: percentile `p` is linear interpolation
over the sorted list at `index = p/100 * (n-1)`; an integral index selects
that element, otherwise the floor and ceil elements are interpolated
weighted by the fractional part; `n == 0` yields `0` and `n == 1` the
single value; each result passes through round-half-even. -/
def percentile_spec (p : ℚ) (history : List ℚ) : ℤ :=
  if history = [] then 0
  else
    let sorted := List.insertionSort (· ≤ ·) history
    let n := sorted.length
    if n = 1 then pyRound (sorted.getD 0 0)
    else
      let index : ℚ := p / 100 * ((n : ℚ) - 1)
      if Int.fract index = 0 then pyRound (sorted.getD (⌊index⌋).toNat 0)
      else
        let lo := sorted.getD (⌊index⌋).toNat 0
        let hi := sorted.getD (⌈index⌉).toNat 0
        pyRound (lo + Int.fract index * (hi - lo))

/-- A query-log entry as read by `django_runner.py`, whose code accesses
`q["sql"]` and `float(q["time"])` directly (a parseable time value). -/
structure RQuery where
  sql : String
  time : ℚ
deriving DecidableEq

/-- Duration flags of `django_runner.py:_generate_performance_flags`:
`very_slow` above 5000 ms, else `slow` above 1000 ms. -/
def duration_flags (duration : ℚ) : List String :=
  if duration > 5000 then ["very_slow"]
  else if duration > 1000 then ["slow"]
  else []

/-- Database-query flags of `_generate_performance_flags`:
`high_db_queries` above 100 queries, else `moderate_db_queries` above 50. -/
def db_flags (query_count : ℕ) : List String :=
  if query_count > 100 then ["high_db_queries"]
  else if query_count > 50 then ["moderate_db_queries"]
  else []

/-- Network flag of `_generate_performance_flags`: `network_calls_blocked`
whenever any network call attempt was recorded. -/
def network_flags (network_attempts : ℕ) : List String :=
  if network_attempts > 0 then ["network_calls_blocked"] else []

/-- Query-specific flags of `_generate_performance_flags`: a
`has_slow_queries_<n>` flag counting queries above 100 ms, and a potential
N+1 flag when more than ten SELECT queries ran. -/
def query_specific_flags (test_queries : List RQuery) : List String :=
  if test_queries = [] then []
  else
    let slow_query_count := (test_queries.filter (fun q => q.time > 1 / 10)).length
    (if slow_query_count > 0 then ["has_slow_queries_" ++ toString slow_query_count] else [])
      ++ (if (test_queries.filter
            (fun q => pyStartsWith (pyUpper (pyStrip q.sql)) "SELECT")).length > 10
          then ["potential_n_plus_1_queries"] else [])

/-- `django_runner.py:TrimTelemetryRunner._generate_performance_flags`:
the flag segments appended in source order. -/
def generate_performance_flags (duration : ℚ) (query_count : ℕ)
    (test_queries : List RQuery) (network_attempts : ℕ) : List String :=
  duration_flags duration ++ db_flags query_count
    ++ network_flags network_attempts ++ query_specific_flags test_queries

/-- Duration flags of `base_collector.py:end_test` and
`django_instrumentation.py:stopTest`: `very_slow` above 5000 ms, else
`slow` above 2000 ms. -/
def duration_flags_2000 (duration : ℚ) : List String :=
  if duration > 5000 then ["very_slow"]
  else if duration > 2000 then ["slow"]
  else []

/-- Performance flags appended by `base_collector.py:end_test`: the 2000 ms
`slow` threshold and `network_calls_blocked` when any attempt was
recorded (no database flags on this path). -/
def base_collector_flags (duration : ℚ) (network_attempts : ℕ) : List String :=
  duration_flags_2000 duration ++ network_flags network_attempts

/-- Performance flags appended by
`django_instrumentation.py:InstrumentedTestResult.stopTest`: `very_slow`
above 5000 ms else `slow` above 2000 ms, `high_db_queries` above 100
queries else `moderate_db_queries` above 50, and `network_calls_blocked`
when any attempt was recorded. -/
def instrumentation_flags (duration : ℚ) (queries : ℕ)
    (network_attempts : ℕ) : List String :=
  duration_flags_2000 duration ++ db_flags queries ++ network_flags network_attempts

/-! Association-list lemmas used to reason about the signature dictionaries. -/

theorem getA_setA_self {α : Type} (m : List (String × α)) (k : String) (v : α) :
    getA (setA m k v) k = some v := by
  induction m with
  | nil => simp [setA, getA]
  | cons p ps ih =>
    by_cases h : p.1 = k
    · simp [setA, h, getA]
    · simp [setA, h, getA, ih]

theorem getA_setA_ne {α : Type} (m : List (String × α)) {k t : String} (v : α)
    (h : t ≠ k) : getA (setA m k v) t = getA m t := by
  have hk : k ≠ t := Ne.symm h
  induction m with
  | nil => simp [setA, getA, hk]
  | cons p ps ih =>
    by_cases hp : p.1 = k
    · simp [setA, hp, getA, hk]
    · simp [setA, hp, getA, ih]

theorem getA_append {α : Type} (m₁ m₂ : List (String × α)) (k : String) :
    getA (m₁ ++ m₂) k
      = match getA m₁ k with
        | some v => some v
        | none => getA m₂ k := by
  induction m₁ with
  | nil => simp [getA]
  | cons p ps ih =>
    by_cases h : p.1 = k
    · simp [getA, h]
    · simp [getA, h, ih]

theorem getA_eq_none_iff {α : Type} (m : List (String × α)) (k : String) :
    getA m k = none ↔ k ∉ m.map Prod.fst := by
  induction m with
  | nil => simp [getA]
  | cons p ps ih =>
    by_cases h : p.1 = k
    · simp [getA, h]
    · simp [getA, h, ih, Ne.symm h]

theorem keys_setA_of_isSome {α : Type} (m : List (String × α)) (k : String) (v : α)
    (h : (getA m k).isSome) : (setA m k v).map Prod.fst = m.map Prod.fst := by
  induction m with
  | nil => simp [getA] at h
  | cons p ps ih =>
    by_cases hp : p.1 = k
    · simp [setA, hp]
    · simp [getA, hp] at h
      simp [setA, hp, ih h]

theorem mem_iff_getA {α : Type} (m : List (String × α))
    (h : (m.map Prod.fst).Nodup) (k : String) (v : α) :
    (k, v) ∈ m ↔ getA m k = some v := by
  induction m with
  | nil => simp [getA]
  | cons p ps ih =>
    have h1 : p.1 ∉ ps.map Prod.fst := (List.nodup_cons.mp h).1
    have h2 : (ps.map Prod.fst).Nodup := (List.nodup_cons.mp h).2
    by_cases hp : p.1 = k
    · simp only [getA, if_pos hp]
      constructor
      · intro hm
        rcases List.mem_cons.mp hm with he | hm2
        · rw [← he]
        · exact absurd (List.mem_map_of_mem Prod.fst hm2) (hp ▸ h1)
      · intro hv
        refine List.mem_cons.mpr (Or.inl ?_)
        rw [← hp, ← Option.some_inj.mp hv]
    · simp only [getA, if_neg hp]
      rw [← ih h2]
      constructor
      · intro hm
        rcases List.mem_cons.mp hm with he | hm2
        · exact absurd (congrArg Prod.fst he).symm hp
        · exact hm2
      · exact fun hm2 => List.mem_cons.mpr (Or.inr hm2)

/-! Lemmas on the signature dictionary of `django_telemetry.py`. -/

theorem getA_bump_self (m : List (String × Nat)) (s : String) :
    getA (bump_signature m s) s = some ((getA m s).getD 0 + 1) := by
  unfold bump_signature
  cases hm : getA m s with
  | some c => simp [getA_setA_self]
  | none => simp [getA_append, hm, getA]

theorem getA_bump_ne (m : List (String × Nat)) {s t : String} (h : t ≠ s) :
    getA (bump_signature m s) t = getA m t := by
  unfold bump_signature
  cases hm : getA m s with
  | some c => simp [getA_setA_ne m _ h]
  | none =>
    rw [getA_append]
    cases h2 : getA m t with
    | some v => simp
    | none => simp [getA, Ne.symm h]

theorem keys_bump_nodup (m : List (String × Nat)) (s : String)
    (h : (m.map Prod.fst).Nodup) :
    ((bump_signature m s).map Prod.fst).Nodup := by
  unfold bump_signature
  cases hm : getA m s with
  | some c =>
    rw [keys_setA_of_isSome m s (c + 1) (by simp [hm])]
    exact h
  | none =>
    have hs : s ∉ m.map Prod.fst := (getA_eq_none_iff m s).mp hm
    simp only [List.map_append, List.map_cons, List.map_nil]
    rw [List.nodup_append]
    refine ⟨h, List.nodup_singleton s, ?_⟩
    intro a ha hb
    rw [List.mem_singleton] at hb
    exact hs (hb ▸ ha)

theorem signature_count_cons (q : Query) (qs : List Query) (sig : String) :
    signature_count (q :: qs) sig
      = (if sql_signature q = sig then 1 else 0) + signature_count qs sig := by
  by_cases h : sql_signature q = sig
  · simp [signature_count, List.filter_cons, h, Nat.add_comm]
  · simp [signature_count, List.filter_cons, h]

theorem getA_signatures_aux (qs : List Query) :
    ∀ (m : List (String × Nat)) (sig : String),
      getA (qs.foldl (fun m q => bump_signature m (sql_signature q)) m) sig
        = match getA m sig with
          | some c => some (c + signature_count qs sig)
          | none =>
            if signature_count qs sig = 0 then none
            else some (signature_count qs sig) := by
  induction qs with
  | nil =>
    intro m sig
    cases h : getA m sig <;> simp [signature_count, h]
  | cons q qs ih =>
    intro m sig
    rw [List.foldl_cons, ih, signature_count_cons]
    by_cases hq : sql_signature q = sig
    · rw [hq, getA_bump_self, if_pos rfl]
      cases h : getA m sig with
      | some c =>
        simp only [h, Option.getD_some]
        rw [(by omega : c + 1 + signature_count qs sig
              = c + (1 + signature_count qs sig))]
      | none =>
        simp only [h, Option.getD_none]
        rw [if_neg (by omega)]
    · rw [getA_bump_ne m (fun hh => hq hh.symm), if_neg hq]
      cases h : getA m sig with
      | some c => simp [h]
      | none => simp [h]

theorem getA_query_signatures (qs : List Query) (sig : String) :
    getA (query_signatures qs) sig
      = if signature_count qs sig = 0 then none
        else some (signature_count qs sig) := by
  have h := getA_signatures_aux qs [] sig
  simpa [query_signatures, getA] using h

theorem keys_query_signatures_nodup (qs : List Query) :
    ((query_signatures qs).map Prod.fst).Nodup := by
  have h : ∀ (m : List (String × Nat)), (m.map Prod.fst).Nodup →
      ((qs.foldl (fun m q => bump_signature m (sql_signature q)) m).map Prod.fst).Nodup := by
    induction qs with
    | nil => exact fun m hm => hm
    | cons q qs ih =>
      intro m hm
      exact ih _ (keys_bump_nodup m (sql_signature q) hm)
  exact h [] (by simp)

/-! Claim C4: duplicate-query grouping. -/

/-- C4 (amended): queries are grouped by the signature `upper(trim(sql))[:100]`;
the duplicate list of `django_telemetry.py` contains exactly the signature
groups with count > 1, each reported with its occurrence count (but not with
its cumulative duration, which the duplicate entries do not carry); no group
with count == 1 appears; in particular two queries identical up to the
signature form a group of count 2 that excludes a third distinct query. -/
theorem db_duplicate_grouping :
    (∀ (qs : List Query) (e : DupEntry),
        e ∈ duplicate_queries qs ↔
          ∃ sig, signature_count qs sig = e.count ∧ 1 < e.count ∧
            e.sql = (if pyLen sig > 100 then sig ++ "..." else sig))
    ∧ duplicate_queries
        [⟨"Select 1 ", some (.numStr (1 / 10))⟩,
         ⟨"select 1", some (.numStr (1 / 10))⟩,
         ⟨"SELECT 2", some (.numStr (3 / 10))⟩]
      = [⟨"SELECT 1", 2⟩] := by
  constructor
  · intro qs e
    unfold duplicate_queries
    constructor
    · intro hm
      rcases List.mem_map.mp hm with ⟨p, hp, he⟩
      rcases List.mem_filter.mp hp with ⟨hmem, hcnt⟩
      have hc : 1 < p.2 := by simpa using hcnt
      have hget : getA (query_signatures qs) p.1 = some p.2 :=
        (mem_iff_getA _ (keys_query_signatures_nodup qs) p.1 p.2).mp hmem
      have hcount : signature_count qs p.1 = p.2 := by
        rw [getA_query_signatures] at hget
        by_cases h0 : signature_count qs p.1 = 0
        · rw [if_pos h0] at hget
          exact absurd hget (by simp)
        · rw [if_neg h0] at hget
          exact Option.some_inj.mp hget
      subst he
      exact ⟨p.1, hcount, hc, rfl⟩
    · rintro ⟨sig, hcount, hc, hsql⟩
      have hget : getA (query_signatures qs) sig = some e.count := by
        rw [getA_query_signatures, hcount, if_neg (by omega)]
      have hmem : (sig, e.count) ∈ query_signatures qs :=
        (mem_iff_getA _ (keys_query_signatures_nodup qs) sig e.count).mpr hget
      refine List.mem_map.mpr
        ⟨(sig, e.count), List.mem_filter.mpr ⟨hmem, by simpa using hc⟩, ?_⟩
      cases e with
      | mk s c =>
        simp only at hsql
        rw [hsql]
  · decide

/-- C4 counterexample to the claim as stated: the duplicate list does not
report the group's cumulative duration — two runs whose duplicate group has
different cumulative durations produce identical duplicate lists, so no
reading of the duplicate report can recover the duration the claim says is
reported. -/
theorem db_duplicate_no_duration_counterexample :
    duplicate_queries
        [⟨"SELECT 1", some (.numStr 1)⟩, ⟨"SELECT 1", some (.numStr 1)⟩]
      = duplicate_queries
        [⟨"SELECT 1", some (.numStr 3)⟩, ⟨"SELECT 1", some (.numStr 3)⟩]
    ∧ signature_total_duration
        [⟨"SELECT 1", some (.numStr 1)⟩, ⟨"SELECT 1", some (.numStr 1)⟩] "SELECT 1"
      ≠ signature_total_duration
        [⟨"SELECT 1", some (.numStr 3)⟩, ⟨"SELECT 1", some (.numStr 3)⟩] "SELECT 1" := by
  have hsig : ∀ t, sql_signature ⟨"SELECT 1", t⟩ = "SELECT 1" := fun t => by
    show pyTake (pyStrip (pyUpper "SELECT 1")) 100 = "SELECT 1"
    decide
  refine ⟨by decide, ?_⟩
  simp only [signature_total_duration, List.filter_cons, List.filter_nil, hsig]
  norm_num [query_duration]

/-! Claim C7: malformed durations are coerced to zero. -/

/-- C7: a query event whose `time` value is a non-numeric string or whose
`time` key is missing is coerced to duration `0` and contributes nothing to
the collected `total_duration_ms`; the collection is a total function, so
nothing raises out of `end_test`. -/
theorem malformed_duration_non_propagation (l₁ l₂ : List Query) (q : Query)
    (h : q.time = some .badStr ∨ q.time = none) :
    query_duration q = 0
    ∧ db_total_duration_ms (l₁ ++ q :: l₂) = db_total_duration_ms (l₁ ++ l₂) := by
  have hq : query_duration q = 0 := by
    rcases h with h | h <;> simp [query_duration, h]
  refine ⟨hq, ?_⟩
  unfold db_total_duration_ms total_duration
  rw [List.map_append, List.map_append, List.map_cons, List.sum_append,
    List.sum_append, List.sum_cons, hq, zero_add]

/-- C7 witness: a concrete malformed record among two well-formed ones. -/
theorem malformed_duration_witness :
    ((Query.mk "x" (some .badStr)).time = some .badStr
        ∨ (Query.mk "x" (some .badStr)).time = none)
    ∧ query_duration ⟨"x", some .badStr⟩ = 0
    ∧ db_total_duration_ms
        ([⟨"SELECT 1", some (.numStr 2)⟩] ++ ⟨"x", some .badStr⟩ :: [⟨"SELECT 2", some (.num 3)⟩])
      = db_total_duration_ms
        ([⟨"SELECT 1", some (.numStr 2)⟩] ++ [⟨"SELECT 2", some (.num 3)⟩]) :=
  ⟨Or.inl rfl,
   (malformed_duration_non_propagation [⟨"SELECT 1", some (.numStr 2)⟩]
      [⟨"SELECT 2", some (.num 3)⟩] ⟨"x", some .badStr⟩ (Or.inl rfl)).1,
   (malformed_duration_non_propagation [⟨"SELECT 1", some (.numStr 2)⟩]
      [⟨"SELECT 2", some (.num 3)⟩] ⟨"x", some .badStr⟩ (Or.inl rfl)).2⟩

/-! Claim C3: sink fallback. -/

/-- C3: `_write_telemetry` appends exactly one serialized line (plus a
newline) to the run file when a file path is configured and the write
succeeds; in every other case — no file path (creation already failed) or a
failing open/write — the very same serialized line is emitted on standard
output; every case returns a successor state, so the write never raises. -/
theorem sink_fallback {α : Type} (dumps : α → String) (fileOk : Bool)
    (s : SinkState) (data : α) :
    (s.telemetry_file ≠ none → fileOk = true →
        write_telemetry dumps fileOk s data
          = { s with fileData := s.fileData ++ (dumps data ++ "\n") })
    ∧ (s.telemetry_file = none ∨ fileOk = false →
        write_telemetry dumps fileOk s data
          = { s with stdoutData := s.stdoutData ++ [dumps data] }) := by
  unfold write_telemetry
  cases h : s.telemetry_file with
  | none => exact ⟨fun hne _ => absurd rfl hne, fun _ => rfl⟩
  | some p =>
    cases fileOk with
    | true =>
      refine ⟨fun _ _ => rfl, fun hor => ?_⟩
      rcases hor with h1 | h2
      · exact absurd h1 (by simp)
      · exact absurd h2 (by simp)
    | false => exact ⟨fun _ hc => absurd hc (by simp), fun _ => rfl⟩

/-- C3 witness: one record written once with a healthy file and once with a
failing file; the fallback line carries the identical serialized content. -/
theorem sink_fallback_witness :
    write_telemetry id true ⟨some "run.ndjson", "", []⟩ "x"
      = { SinkState.mk (some "run.ndjson") "" [] with fileData := "" ++ (id "x" ++ "\n") }
    ∧ write_telemetry id false ⟨some "run.ndjson", "", []⟩ "x"
      = { SinkState.mk (some "run.ndjson") "" [] with stdoutData := [] ++ [id "x"] } :=
  ⟨(sink_fallback id true ⟨some "run.ndjson", "", []⟩ "x").1 (by simp) rfl,
   (sink_fallback id false ⟨some "run.ndjson", "", []⟩ "x").2 (Or.inr rfl)⟩

/-! Claim C8: starting an already-running test. -/

/-- C8 (amended): `start_test` on a `test_id` never raises (it is total) and
leaves the `test_id` running at most once — its dictionaries map the id to
exactly one entry — but when the id is already running it does not fail
idempotently and records no error: it silently restarts the scope,
overwriting the start time and resetting the query and network tracking,
while entries of other tests are untouched. -/
theorem start_test_restarts_scope (s : CollectorState) (tid : String) (now : ℚ) :
    getA (start_test s tid now).test_status tid = some "running"
    ∧ getA (start_test s tid now).test_timings tid = some now
    ∧ getA (start_test s tid now).test_queries tid = some 0
    ∧ getA (start_test s tid now).test_network_calls tid = some (.pyList [])
    ∧ (∀ t, t ≠ tid →
        getA (start_test s tid now).test_status t = getA s.test_status t
        ∧ getA (start_test s tid now).test_timings t = getA s.test_timings t) :=
  ⟨getA_setA_self _ _ _, getA_setA_self _ _ _, getA_setA_self _ _ _,
   getA_setA_self _ _ _,
   fun _ ht => ⟨getA_setA_ne _ _ ht, getA_setA_ne _ _ ht⟩⟩

/-- C8 witness: restarting the running test `"A"` while test `"B"` keeps
its entries. -/
theorem start_test_restarts_scope_witness :
    getA (start_test ⟨[("B", "running")], [("B", 7)], [("B", 0)],
        [("B", .pyList [])]⟩ "A" 1).test_status "A" = some "running"
    ∧ ("B" ≠ "A"
        ∧ getA (start_test ⟨[("B", "running")], [("B", 7)], [("B", 0)],
            [("B", .pyList [])]⟩ "A" 1).test_timings "B"
          = getA (CollectorState.mk [("B", "running")] [("B", 7)] [("B", 0)]
              [("B", .pyList [])]).test_timings "B") :=
  ⟨(start_test_restarts_scope ⟨[("B", "running")], [("B", 7)], [("B", 0)],
      [("B", .pyList [])]⟩ "A" 1).1,
   by decide,
   ((start_test_restarts_scope ⟨[("B", "running")], [("B", 7)], [("B", 0)],
      [("B", .pyList [])]⟩ "A" 1).2.2.2.2 "B" (by decide)).2⟩

/-- C8 counterexample to the claim as stated: a second `start` of a running
test is not a recorded failure — it succeeds and restarts the scope's clock
(no `DuplicateScopeError` exists anywhere in the collector state). -/
theorem start_test_duplicate_counterexample :
    getA (start_test (start_test ⟨[], [], [], []⟩ "A" 1) "A" 2).test_timings "A"
      = some 2
    ∧ getA (start_test ⟨[], [], [], []⟩ "A" 1).test_timings "A" = some 1
    ∧ (2 : ℚ) ≠ 1 :=
  ⟨rfl, rfl, by norm_num⟩

/-! Claim C10: base-collector network telemetry is always empty. -/

/-- C10: the base collector initialises `test_network_calls[test_id]` to a
Python list, while `_collect_network_telemetry` reads the entry with
`.get`, a mapping method; the resulting `AttributeError` is swallowed by
the surrounding handler, so for every test whose entry is a list the
collected network telemetry is `total_calls == 0` with an empty URL list,
whatever calls the list holds. -/
theorem base_network_telemetry_always_empty (s : CollectorState) (tid : String)
    (now : ℚ) (l : List String)
    (h : getA s.test_network_calls tid = some (.pyList l)) :
    collect_network_telemetry s tid = (0, [])
    ∧ getA (start_test s tid now).test_network_calls tid = some (.pyList []) := by
  constructor
  · unfold collect_network_telemetry
    rw [h]
  · exact getA_setA_self _ _ _

/-- C10 witness: a list entry holding one recorded call still collects as
zero calls. -/
theorem base_network_telemetry_witness :
    getA (CollectorState.mk [] [] [] [("A", .pyList ["http://example.com"])]).test_network_calls "A"
      = some (.pyList ["http://example.com"])
    ∧ collect_network_telemetry ⟨[], [], [], [("A", .pyList ["http://example.com"])]⟩ "A"
      = (0, [])
    ∧ getA (start_test ⟨[], [], [], [("A", .pyList ["http://example.com"])]⟩ "A" 0).test_network_calls "A"
      = some (.pyList []) :=
  ⟨rfl,
   (base_network_telemetry_always_empty ⟨[], [], [], [("A", .pyList ["http://example.com"])]⟩
      "A" 0 ["http://example.com"] rfl).1,
   (base_network_telemetry_always_empty ⟨[], [], [], [("A", .pyList ["http://example.com"])]⟩
      "A" 0 ["http://example.com"] rfl).2⟩

/-- Helper: round-half-even of zero. -/
theorem pyRound_zero : pyRound 0 = 0 := by
  norm_num [pyRound]

/-- Helper: the base `end_test` reads `count` with default 0; both shapes of
the nested collector's return value yield 0. -/
theorem db_result_count_eq_zero (r : DjDbResult) : db_result_count r = 0 := by
  cases r <;> rfl

/-- Helper: same for `total_duration_ms`. -/
theorem db_result_total_eq_zero (r : DjDbResult) : db_result_total_duration_ms r = 0 := by
  cases r <;> rfl

/-- Helper: same for `duplicate_queries`. -/
theorem db_result_duplicates_eq_nil (r : DjDbResult) : db_result_duplicates r = [] := by
  cases r <;> rfl

/-! Claim C1: watermark attribution in `django/telemetry.py`. -/

/-- C1: evaluation of `django/telemetry.py` at the failing input — a global
query log pre-seeded with K = 1 query when the scope starts and M = 2
queries appended during the scope.  `start_test` records the watermark 1
(the pre-reset length) and then resets the log, so collection slices the
in-scope log from index 1 and attributes only M − K = 1 query (dropping the
first in-scope query), not the M = 2 the claim requires. -/
theorem watermark_attribution_bug :
    (dj_start_test
        ⟨⟨[], [], [], []⟩, ⟨.original, false, none⟩, [⟨"K1", some (.numStr 1)⟩]⟩
        "A" 0).queryLog = []
    ∧ getA (dj_start_test
        ⟨⟨[], [], [], []⟩, ⟨.original, false, none⟩, [⟨"K1", some (.numStr 1)⟩]⟩
        "A" 0).collector.test_queries "A" = some 1
    ∧ (dj_attributed_queries
        { dj_start_test
            ⟨⟨[], [], [], []⟩, ⟨.original, false, none⟩, [⟨"K1", some (.numStr 1)⟩]⟩
            "A" 0 with
          queryLog := (dj_start_test
            ⟨⟨[], [], [], []⟩, ⟨.original, false, none⟩, [⟨"K1", some (.numStr 1)⟩]⟩
            "A" 0).queryLog ++ [⟨"M1", some (.numStr 1)⟩, ⟨"M2", some (.numStr 1)⟩] }
        "A").length = 1
    ∧ (dj_attributed_queries
        { dj_start_test
            ⟨⟨[], [], [], []⟩, ⟨.original, false, none⟩, [⟨"K1", some (.numStr 1)⟩]⟩
            "A" 0 with
          queryLog := (dj_start_test
            ⟨⟨[], [], [], []⟩, ⟨.original, false, none⟩, [⟨"K1", some (.numStr 1)⟩]⟩
            "A" 0).queryLog ++ [⟨"M1", some (.numStr 1)⟩, ⟨"M2", some (.numStr 1)⟩] }
        "A").map Query.sql = ["M2"]
    ∧ (1 : ℕ) ≠ 2 :=
  ⟨rfl, rfl, rfl, rfl, by omega⟩

/-! Claim C2: reference-counted network patch. -/

/-- C2: evaluation of `django/telemetry.py` at the failing input — two
overlapping scopes A and B.  Ending A via `end_test` leaves the patch
installed (as the claim requires), but ending B does not restore the
original entry point: `end_test` runs `_cleanup_test_data` (which deletes
the test's `test_network_calls` key) before `stop_network_monitoring`, so
the restore branch never fires and the patch outlives all scopes.  Calling
`stop_network_monitoring` directly for both scopes — without the prior
cleanup — does restore the original, isolating the ordering slip. -/
theorem network_patch_never_restored_bug :
    ((dj_end_test
        (dj_start_test (dj_start_test
          ⟨⟨[], [], [], []⟩, ⟨.original, false, none⟩, []⟩ "A" 0) "B" 0)
        "A" 1 "passed").1.urllib.patched = true)
    ∧ ((dj_end_test
        (dj_end_test
          (dj_start_test (dj_start_test
            ⟨⟨[], [], [], []⟩, ⟨.original, false, none⟩, []⟩ "A" 0) "B" 0)
          "A" 1 "passed").1
        "B" 2 "passed").1.urllib.patched = true)
    ∧ ((dj_end_test
        (dj_end_test
          (dj_start_test (dj_start_test
            ⟨⟨[], [], [], []⟩, ⟨.original, false, none⟩, []⟩ "A" 0) "B" 0)
          "A" 1 "passed").1
        "B" 2 "passed").1.urllib.urlopen = .tracked "B")
    ∧ UrlopenFunc.tracked "B" ≠ .original
    ∧ ((stop_network_monitoring
        (stop_network_monitoring
          (dj_start_test (dj_start_test
            ⟨⟨[], [], [], []⟩, ⟨.original, false, none⟩, []⟩ "A" 0) "B" 0)
          "A")
        "B").urllib.urlopen = .original)
    ∧ ((stop_network_monitoring
        (stop_network_monitoring
          (dj_start_test (dj_start_test
            ⟨⟨[], [], [], []⟩, ⟨.original, false, none⟩, []⟩ "A" 0) "B" 0)
          "A")
        "B").urllib.patched = false) :=
  ⟨rfl, rfl, rfl, by decide, rfl, rfl⟩

/-! Claim C9: ending an unknown scope. -/

/-- C9 (amended): `end_test` computes
`duration_ms = round((end_time - start_time) * 1000)` with the recorded
start time defaulting to the end time; for a `test_id` with no live scope
it therefore never raises and returns a record with `start_time ==
end_time`, duration 0, zero numeric aggregates and empty network and
duplicate lists — but, under the nested Django collector, the `db_queries`
detail list is the signature grouping of the whole global query log (the
missing watermark defaults to 0), so it is not necessarily empty. -/
theorem end_test_duration_and_unknown_scope (s : DjangoState) (tid : String)
    (te : ℚ) (st : String) :
    ((dj_end_test s tid te st).2.test_duration_ms
        = pyRound ((te - (getA s.collector.test_timings tid).getD te) * 1000))
    ∧ (getA s.collector.test_timings tid = none →
        getA s.collector.test_queries tid = none →
        getA s.collector.test_network_calls tid = none →
          (dj_end_test s tid te st).2.test_duration_ms = 0
          ∧ (dj_end_test s tid te st).2.start_time = (dj_end_test s tid te st).2.end_time
          ∧ (dj_end_test s tid te st).2.db_count = 0
          ∧ (dj_end_test s tid te st).2.db_total_duration_ms = 0
          ∧ (dj_end_test s tid te st).2.db_duplicate_queries = []
          ∧ (dj_end_test s tid te st).2.net_total_calls = 0
          ∧ (dj_end_test s tid te st).2.net_urls = []
          ∧ dj_attributed_queries s tid = s.queryLog) := by
  constructor
  · rfl
  · intro h1 h2 h3
    refine ⟨?_, ?_, db_result_count_eq_zero _, db_result_total_eq_zero _,
      db_result_duplicates_eq_nil _, ?_, ?_, ?_⟩
    · show pyRound ((te - (getA s.collector.test_timings tid).getD te) * 1000) = 0
      rw [h1]
      simp [pyRound_zero]
    · show (getA s.collector.test_timings tid).getD te = te
      rw [h1, Option.getD_none]
    · show (collect_network_telemetry s.collector tid).1 = 0
      unfold collect_network_telemetry
      rw [h3]
    · show (collect_network_telemetry s.collector tid).2 = []
      unfold collect_network_telemetry
      rw [h3]
    · unfold dj_attributed_queries
      rw [h2]
      rfl

/-- C9 witness: a collector holding no scope for `"X"` whose global log
carries one query. -/
theorem end_unknown_scope_witness :
    getA (DjangoState.mk ⟨[], [], [], []⟩ ⟨.original, false, none⟩
        [⟨"SELECT 1", some (.numStr 1)⟩]).collector.test_timings "X" = none
    ∧ (dj_end_test
        ⟨⟨[], [], [], []⟩, ⟨.original, false, none⟩, [⟨"SELECT 1", some (.numStr 1)⟩]⟩
        "X" 5 "passed").2.test_duration_ms = 0
    ∧ (dj_end_test
        ⟨⟨[], [], [], []⟩, ⟨.original, false, none⟩, [⟨"SELECT 1", some (.numStr 1)⟩]⟩
        "X" 5 "passed").2.net_total_calls = 0 :=
  ⟨rfl,
   ((end_test_duration_and_unknown_scope
      ⟨⟨[], [], [], []⟩, ⟨.original, false, none⟩, [⟨"SELECT 1", some (.numStr 1)⟩]⟩
      "X" 5 "passed").2 rfl rfl rfl).1,
   ((end_test_duration_and_unknown_scope
      ⟨⟨[], [], [], []⟩, ⟨.original, false, none⟩, [⟨"SELECT 1", some (.numStr 1)⟩]⟩
      "X" 5 "passed").2 rfl rfl rfl).2.2.2.2.2.1⟩

/-- C9 counterexample to the claim as stated: ending the unknown scope
`"X"` while the global log holds a query returns a record whose
`db_queries` list is not empty — the query statistics are not all zero. -/
theorem end_unknown_scope_counterexample :
    (dj_end_test
        ⟨⟨[], [], [], []⟩, ⟨.original, false, none⟩, [⟨"SELECT 1", some (.numStr 1)⟩]⟩
        "X" 5 "passed").2.db_queries ≠ []
    ∧ (dj_end_test
        ⟨⟨[], [], [], []⟩, ⟨.original, false, none⟩, [⟨"SELECT 1", some (.numStr 1)⟩]⟩
        "X" 5 "passed").2.db_count = 0 := by
  constructor
  · intro h
    exact absurd (congrArg List.length h) (by decide)
  · rfl

/-! Claim C5: percentile computation. -/

/-- Helper: Python `int()` agrees with the floor on non-negative values. -/
theorem pyTrunc_eq_floor {x : ℚ} (h : 0 ≤ x) : pyTrunc x = ⌊x⌋ := by
  unfold pyTrunc
  rw [if_neg (not_lt.mpr h)]

/-- Helper: a rational is integral (`is_integer` in Python) exactly when its
reduced denominator is 1. -/
theorem fract_eq_zero_iff_den {x : ℚ} : Int.fract x = 0 ↔ x.den = 1 := by
  constructor
  · intro h
    rw [Int.fract] at h
    rw [sub_eq_zero.mp h]
    exact Rat.den_intCast ⌊x⌋
  · intro h
    have h2 : ((x.num : ℚ)) = x := (Rat.den_eq_one_iff x).mp h
    rw [← h2, Int.fract_intCast]

/-- Helper: the ceiling of a non-integral rational is its floor plus one. -/
theorem ceil_of_fract_ne {x : ℚ} (h : Int.fract x ≠ 0) : ⌈x⌉ = ⌊x⌋ + 1 := by
  have h1 : (⌈x⌉ : ℚ) = x + 1 - Int.fract x := Int.ceil_eq_add_one_sub_fract h
  have h2 : (⌈x⌉ : ℚ) = ((⌊x⌋ + 1 : ℤ) : ℚ) := by
    rw [h1, Int.fract]
    push_cast
    ring
  exact_mod_cast h2

/-- C5 (amended): for every percentile `p ≥ 0` the runner's percentile
equals the spec's linear interpolation over the sorted history at
`index = p/100 * (n-1)` — selecting the element at an integral index and
otherwise interpolating the floor and ceil elements weighted by the
fractional part, with `n == 0` yielding 0 and `n == 1` the single value —
except that every non-trivial result passes through Python's
round-half-even before being returned; in particular `[10, 20, 30]` gives
p50 = 20, `[42]` gives 42 at p50/p95/p99, and an empty history gives 0. -/
theorem percentile_interpolation_rounded :
    (∀ (p : ℚ) (ds : List ℚ), 0 ≤ p → calculate_percentile p ds = percentile_spec p ds)
    ∧ calculate_percentile 50 [10, 20, 30] = 20
    ∧ calculate_percentile 50 [42] = 42
    ∧ calculate_percentile 95 [42] = 42
    ∧ calculate_percentile 99 [42] = 42
    ∧ calculate_percentile 50 [] = 0
    ∧ calculate_percentile 95 [] = 0
    ∧ calculate_percentile 99 [] = 0 := by
  refine ⟨?_, ?_, ?_, ?_, ?_, ?_, ?_, ?_⟩
  · intro p ds hp
    by_cases hd : ds = []
    · simp [calculate_percentile, percentile_spec, hd]
    · simp only [calculate_percentile, percentile_spec, if_neg hd]
      by_cases hn : (List.insertionSort (· ≤ ·) ds).length = 1
      · rw [if_pos hn, if_pos hn]
      · rw [if_neg hn, if_neg hn]
        have hlen : 1 ≤ (List.insertionSort (· ≤ ·) ds).length := by
          rw [List.length_insertionSort]
          cases ds with
          | nil => exact absurd rfl hd
          | cons a as => simp
        have hnn : 0 ≤ p / 100 * (((List.insertionSort (· ≤ ·) ds).length : ℚ) - 1) := by
          apply mul_nonneg (div_nonneg hp (by norm_num))
          have h1 : (1 : ℚ) ≤ ((List.insertionSort (· ≤ ·) ds).length : ℚ) := by
            exact_mod_cast hlen
          linarith
        rw [pyTrunc_eq_floor hnn]
        by_cases hden :
            (p / 100 * (((List.insertionSort (· ≤ ·) ds).length : ℚ) - 1)).den = 1
        · rw [if_pos hden, if_pos (fract_eq_zero_iff_den.mpr hden)]
        · rw [if_neg hden, if_neg (fun hz => hden (fract_eq_zero_iff_den.mp hz))]
          rw [ceil_of_fract_ne (fun hz => hden (fract_eq_zero_iff_den.mp hz))]
          rw [Int.fract]
  · norm_num [calculate_percentile, List.insertionSort, List.orderedInsert, pyRound,
      pyTrunc, List.cons_ne_nil]
  · norm_num [calculate_percentile, List.insertionSort, List.orderedInsert, pyRound,
      pyTrunc, List.cons_ne_nil]
  · norm_num [calculate_percentile, List.insertionSort, List.orderedInsert, pyRound,
      pyTrunc, List.cons_ne_nil]
  · norm_num [calculate_percentile, List.insertionSort, List.orderedInsert, pyRound,
      pyTrunc, List.cons_ne_nil]
  · norm_num [calculate_percentile]
  · norm_num [calculate_percentile]
  · norm_num [calculate_percentile]

/-- C5 witness: the interpolating branch at p95 over three durations. -/
theorem percentile_interpolation_witness :
    (0 : ℚ) ≤ 95
    ∧ calculate_percentile 95 [10, 20, 30] = percentile_spec 95 [10, 20, 30] :=
  ⟨by norm_num, percentile_interpolation_rounded.1 95 [10, 20, 30] (by norm_num)⟩

/-- C5 counterexample to the claim as stated: a single duration of 10.5 ms
is not returned as the percentile value — the code rounds it (half to even)
to 10, so percentiles do not literally return the element or the
interpolated value. -/
theorem percentile_rounding_counterexample :
    calculate_percentile 50 [(21 : ℚ) / 2] = 10 ∧ (10 : ℚ) ≠ (21 : ℚ) / 2 := by
  constructor
  · norm_num [calculate_percentile, List.insertionSort, List.orderedInsert, pyRound,
      pyTrunc, List.cons_ne_nil, Int.floor_eq_iff]
  · norm_num

/-! Claim C6: performance flags. -/

/-- Helper: membership in the runner's duration segment. -/
theorem mem_duration_flags (d : ℚ) (x : String) :
    x ∈ duration_flags d ↔
      (x = "very_slow" ∧ 5000 < d) ∨ (x = "slow" ∧ 1000 < d ∧ d ≤ 5000) := by
  unfold duration_flags
  by_cases h1 : d > 5000
  · have h3 : ¬(d ≤ 5000) := not_le.mpr h1
    simp [h1, h3]
  · by_cases h2 : d > 1000
    · have h3 : d ≤ 5000 := not_lt.mp h1
      simp [h1, h2, h3]
    · simp [h1, h2]

/-- Helper: membership in the 2000 ms duration segment of the base collector
and the instrumentation path. -/
theorem mem_duration_flags_2000 (d : ℚ) (x : String) :
    x ∈ duration_flags_2000 d ↔
      (x = "very_slow" ∧ 5000 < d) ∨ (x = "slow" ∧ 2000 < d ∧ d ≤ 5000) := by
  unfold duration_flags_2000
  by_cases h1 : d > 5000
  · have h3 : ¬(d ≤ 5000) := not_le.mpr h1
    simp [h1, h3]
  · by_cases h2 : d > 2000
    · have h3 : d ≤ 5000 := not_lt.mp h1
      simp [h1, h2, h3]
    · simp [h1, h2]

/-- Helper: membership in the database segment. -/
theorem mem_db_flags (qc : ℕ) (x : String) :
    x ∈ db_flags qc ↔
      (x = "high_db_queries" ∧ 100 < qc)
      ∨ (x = "moderate_db_queries" ∧ 50 < qc ∧ qc ≤ 100) := by
  unfold db_flags
  by_cases h1 : qc > 100
  · have h3 : ¬(qc ≤ 100) := by omega
    simp [h1, h3]
  · by_cases h2 : qc > 50
    · have h3 : qc ≤ 100 := by omega
      simp [h1, h2, h3]
    · simp [h1, h2]

/-- Helper: membership in the network segment. -/
theorem mem_network_flags (na : ℕ) (x : String) :
    x ∈ network_flags na ↔ (x = "network_calls_blocked" ∧ 0 < na) := by
  unfold network_flags
  by_cases h : na > 0
  · simp [h]
  · simp [h]

/-- Helper: every query-specific flag is either a `has_slow_queries_<n>`
string or the N+1 flag. -/
theorem mem_query_specific_flags (tq : List RQuery) (x : String)
    (hx : x ∈ query_specific_flags tq) :
    (∃ c : ℕ, 0 < c ∧ x = "has_slow_queries_" ++ toString c)
    ∨ x = "potential_n_plus_1_queries" := by
  simp only [query_specific_flags] at hx
  by_cases h0 : tq = []
  · rw [if_pos h0] at hx
    exact absurd hx (List.not_mem_nil x)
  · rw [if_neg h0] at hx
    rcases List.mem_append.mp hx with h | h
    · by_cases hc : (tq.filter (fun q => q.time > 1 / 10)).length > 0
      · rw [if_pos hc] at h
        rw [List.mem_singleton] at h
        exact Or.inl ⟨_, hc, h⟩
      · rw [if_neg hc] at h
        exact absurd h (List.not_mem_nil x)
    · by_cases hs :
          (tq.filter (fun q => pyStartsWith (pyUpper (pyStrip q.sql)) "SELECT")).length > 10
      · rw [if_pos hs] at h
        rw [List.mem_singleton] at h
        exact Or.inr h
      · rw [if_neg hs] at h
        exact absurd h (List.not_mem_nil x)

/-- Helper: a `has_slow_queries_<n>` string never equals a word that does
not start with the letters `has`. -/
theorem has_slow_flag_ne (s t : String) (ht : t.data.take 3 ≠ ['h', 'a', 's']) :
    "has_slow_queries_" ++ s ≠ t := by
  intro h
  exact ht (by rw [← h]; rfl)

/-- Helper: none of the five threshold flags is a query-specific flag. -/
theorem threshold_flag_notmem_qsf (tq : List RQuery) (t : String)
    (h3 : t.data.take 3 ≠ ['h', 'a', 's'])
    (hp : t ≠ "potential_n_plus_1_queries") : t ∉ query_specific_flags tq := by
  intro hmem
  rcases mem_query_specific_flags tq t hmem with ⟨c, _, hc⟩ | hpe
  · exact has_slow_flag_ne (toString c) t h3 hc.symm
  · exact hp hpe

/-- Helper: full decomposition of the runner's flag list. -/
theorem mem_generate_flags (d : ℚ) (qc : ℕ) (tq : List RQuery) (na : ℕ) (x : String) :
    x ∈ generate_performance_flags d qc tq na ↔
      ((x = "very_slow" ∧ 5000 < d) ∨ (x = "slow" ∧ 1000 < d ∧ d ≤ 5000))
      ∨ ((x = "high_db_queries" ∧ 100 < qc)
          ∨ (x = "moderate_db_queries" ∧ 50 < qc ∧ qc ≤ 100))
      ∨ (x = "network_calls_blocked" ∧ 0 < na)
      ∨ x ∈ query_specific_flags tq := by
  simp only [generate_performance_flags, List.mem_append, mem_duration_flags,
    mem_db_flags, mem_network_flags, or_assoc]

/-- Helper: full decomposition of the instrumentation flag list. -/
theorem mem_instrumentation_flags (d : ℚ) (qc na : ℕ) (x : String) :
    x ∈ instrumentation_flags d qc na ↔
      ((x = "very_slow" ∧ 5000 < d) ∨ (x = "slow" ∧ 2000 < d ∧ d ≤ 5000))
      ∨ ((x = "high_db_queries" ∧ 100 < qc)
          ∨ (x = "moderate_db_queries" ∧ 50 < qc ∧ qc ≤ 100))
      ∨ (x = "network_calls_blocked" ∧ 0 < na) := by
  simp only [instrumentation_flags, List.mem_append, mem_duration_flags_2000,
    mem_db_flags, mem_network_flags, or_assoc]

/-- Helper: full decomposition of the base collector flag list. -/
theorem mem_base_collector_flags (d : ℚ) (na : ℕ) (x : String) :
    x ∈ base_collector_flags d na ↔
      ((x = "very_slow" ∧ 5000 < d) ∨ (x = "slow" ∧ 2000 < d ∧ d ≤ 5000))
      ∨ (x = "network_calls_blocked" ∧ 0 < na) := by
  simp only [base_collector_flags, List.mem_append, mem_duration_flags_2000,
    mem_network_flags, or_assoc]

/-- C6 (amended): the flag thresholds.  In
`django_runner.py:_generate_performance_flags` the list contains
`very_slow` exactly when duration > 5000 ms, else `slow` exactly when
duration > 1000 ms (not the claimed 2000), `high_db_queries` exactly when
the query count > 100, else `moderate_db_queries` exactly when it > 50, and
`network_calls_blocked` exactly when at least one network attempt was
recorded.  The claimed 2000 ms `slow` threshold holds on the other two
paths: `django_instrumentation.py:stopTest` (all five flags) and
`base_collector.py:end_test` (which emits no database flags at all). -/
theorem performance_flags_thresholds :
    (∀ (d : ℚ) (qc : ℕ) (tq : List RQuery) (na : ℕ),
        ("very_slow" ∈ generate_performance_flags d qc tq na ↔ 5000 < d)
        ∧ ("slow" ∈ generate_performance_flags d qc tq na ↔ 1000 < d ∧ d ≤ 5000)
        ∧ ("high_db_queries" ∈ generate_performance_flags d qc tq na ↔ 100 < qc)
        ∧ ("moderate_db_queries" ∈ generate_performance_flags d qc tq na
            ↔ 50 < qc ∧ qc ≤ 100)
        ∧ ("network_calls_blocked" ∈ generate_performance_flags d qc tq na ↔ 0 < na))
    ∧ (∀ (d : ℚ) (qc na : ℕ),
        ("very_slow" ∈ instrumentation_flags d qc na ↔ 5000 < d)
        ∧ ("slow" ∈ instrumentation_flags d qc na ↔ 2000 < d ∧ d ≤ 5000)
        ∧ ("high_db_queries" ∈ instrumentation_flags d qc na ↔ 100 < qc)
        ∧ ("moderate_db_queries" ∈ instrumentation_flags d qc na ↔ 50 < qc ∧ qc ≤ 100)
        ∧ ("network_calls_blocked" ∈ instrumentation_flags d qc na ↔ 0 < na))
    ∧ (∀ (d : ℚ) (na : ℕ),
        ("very_slow" ∈ base_collector_flags d na ↔ 5000 < d)
        ∧ ("slow" ∈ base_collector_flags d na ↔ 2000 < d ∧ d ≤ 5000)
        ∧ ("network_calls_blocked" ∈ base_collector_flags d na ↔ 0 < na)) := by
  refine ⟨?_, ?_, ?_⟩
  · intro d qc tq na
    refine ⟨?_, ?_, ?_, ?_, ?_⟩
    · rw [mem_generate_flags]
      constructor
      · rintro ((⟨_, h⟩ | ⟨he, _⟩) | (⟨he, _⟩ | ⟨he, _⟩) | ⟨he, _⟩ | hm)
        · exact h
        · exact absurd he (by decide)
        · exact absurd he (by decide)
        · exact absurd he (by decide)
        · exact absurd he (by decide)
        · exact absurd hm (threshold_flag_notmem_qsf tq _ (by decide) (by decide))
      · exact fun h => Or.inl (Or.inl ⟨rfl, h⟩)
    · rw [mem_generate_flags]
      constructor
      · rintro ((⟨he, _⟩ | ⟨_, h⟩) | (⟨he, _⟩ | ⟨he, _⟩) | ⟨he, _⟩ | hm)
        · exact absurd he (by decide)
        · exact h
        · exact absurd he (by decide)
        · exact absurd he (by decide)
        · exact absurd he (by decide)
        · exact absurd hm (threshold_flag_notmem_qsf tq _ (by decide) (by decide))
      · exact fun h => Or.inl (Or.inr ⟨rfl, h.1, h.2⟩)
    · rw [mem_generate_flags]
      constructor
      · rintro ((⟨he, _⟩ | ⟨he, _⟩) | (⟨_, h⟩ | ⟨he, _⟩) | ⟨he, _⟩ | hm)
        · exact absurd he (by decide)
        · exact absurd he (by decide)
        · exact h
        · exact absurd he (by decide)
        · exact absurd he (by decide)
        · exact absurd hm (threshold_flag_notmem_qsf tq _ (by decide) (by decide))
      · exact fun h => Or.inr (Or.inl (Or.inl ⟨rfl, h⟩))
    · rw [mem_generate_flags]
      constructor
      · rintro ((⟨he, _⟩ | ⟨he, _⟩) | (⟨he, _⟩ | ⟨_, h⟩) | ⟨he, _⟩ | hm)
        · exact absurd he (by decide)
        · exact absurd he (by decide)
        · exact absurd he (by decide)
        · exact h
        · exact absurd he (by decide)
        · exact absurd hm (threshold_flag_notmem_qsf tq _ (by decide) (by decide))
      · exact fun h => Or.inr (Or.inl (Or.inr ⟨rfl, h.1, h.2⟩))
    · rw [mem_generate_flags]
      constructor
      · rintro ((⟨he, _⟩ | ⟨he, _⟩) | (⟨he, _⟩ | ⟨he, _⟩) | ⟨_, h⟩ | hm)
        · exact absurd he (by decide)
        · exact absurd he (by decide)
        · exact absurd he (by decide)
        · exact absurd he (by decide)
        · exact h
        · exact absurd hm (threshold_flag_notmem_qsf tq _ (by decide) (by decide))
      · exact fun h => Or.inr (Or.inr (Or.inl ⟨rfl, h⟩))
  · intro d qc na
    refine ⟨?_, ?_, ?_, ?_, ?_⟩
    · rw [mem_instrumentation_flags]
      constructor
      · rintro ((⟨_, h⟩ | ⟨he, _⟩) | (⟨he, _⟩ | ⟨he, _⟩) | ⟨he, _⟩)
        · exact h
        · exact absurd he (by decide)
        · exact absurd he (by decide)
        · exact absurd he (by decide)
        · exact absurd he (by decide)
      · exact fun h => Or.inl (Or.inl ⟨rfl, h⟩)
    · rw [mem_instrumentation_flags]
      constructor
      · rintro ((⟨he, _⟩ | ⟨_, h⟩) | (⟨he, _⟩ | ⟨he, _⟩) | ⟨he, _⟩)
        · exact absurd he (by decide)
        · exact h
        · exact absurd he (by decide)
        · exact absurd he (by decide)
        · exact absurd he (by decide)
      · exact fun h => Or.inl (Or.inr ⟨rfl, h.1, h.2⟩)
    · rw [mem_instrumentation_flags]
      constructor
      · rintro ((⟨he, _⟩ | ⟨he, _⟩) | (⟨_, h⟩ | ⟨he, _⟩) | ⟨he, _⟩)
        · exact absurd he (by decide)
        · exact absurd he (by decide)
        · exact h
        · exact absurd he (by decide)
        · exact absurd he (by decide)
      · exact fun h => Or.inr (Or.inl (Or.inl ⟨rfl, h⟩))
    · rw [mem_instrumentation_flags]
      constructor
      · rintro ((⟨he, _⟩ | ⟨he, _⟩) | (⟨he, _⟩ | ⟨_, h⟩) | ⟨he, _⟩)
        · exact absurd he (by decide)
        · exact absurd he (by decide)
        · exact absurd he (by decide)
        · exact h
        · exact absurd he (by decide)
      · exact fun h => Or.inr (Or.inl (Or.inr ⟨rfl, h.1, h.2⟩))
    · rw [mem_instrumentation_flags]
      constructor
      · rintro ((⟨he, _⟩ | ⟨he, _⟩) | (⟨he, _⟩ | ⟨he, _⟩) | ⟨_, h⟩)
        · exact absurd he (by decide)
        · exact absurd he (by decide)
        · exact absurd he (by decide)
        · exact absurd he (by decide)
        · exact h
      · exact fun h => Or.inr (Or.inr ⟨rfl, h⟩)
  · intro d na
    refine ⟨?_, ?_, ?_⟩
    · rw [mem_base_collector_flags]
      constructor
      · rintro ((⟨_, h⟩ | ⟨he, _⟩) | ⟨he, _⟩)
        · exact h
        · exact absurd he (by decide)
        · exact absurd he (by decide)
      · exact fun h => Or.inl (Or.inl ⟨rfl, h⟩)
    · rw [mem_base_collector_flags]
      constructor
      · rintro ((⟨he, _⟩ | ⟨_, h⟩) | ⟨he, _⟩)
        · exact absurd he (by decide)
        · exact h
        · exact absurd he (by decide)
      · exact fun h => Or.inl (Or.inr ⟨rfl, h.1, h.2⟩)
    · rw [mem_base_collector_flags]
      constructor
      · rintro ((⟨he, _⟩ | ⟨he, _⟩) | ⟨_, h⟩)
        · exact absurd he (by decide)
        · exact absurd he (by decide)
        · exact h
      · exact fun h => Or.inr ⟨rfl, h⟩

/-- C6 counterexample to the claim as stated: at 1500 ms the runner's
`_generate_performance_flags` appends `slow` even though 1500 is not above
the claimed 2000 ms threshold. -/
theorem performance_flags_slow_threshold_counterexample :
    "slow" ∈ generate_performance_flags 1500 0 [] 0 ∧ ¬((1500 : ℚ) > 2000) := by
  constructor
  · rw [mem_generate_flags]
    exact Or.inl (Or.inr ⟨rfl, by norm_num, by norm_num⟩)
  · norm_num

end TrimTelemetry
